import Mathlib

/-!
Shallow embedding of the SpecClient connection and channel layer
(SpecConnection.py, SpecChannel.py, SpecWaitObject.py and the event
dispatcher), with theorems settling the frozen claims about it.

Python dictionaries are modelled as association lists with unique keys in
insertion order; Python None is the value PyVal.none; stateful methods
become pure functions threading the object state, with an Option SpecErr
component playing the role of a raised exception; wire output is observed
both as the outgoing byte queue of the source and as a history list of the
structured messages handed to the private send routine.
-/

set_option autoImplicit false

namespace SpecClient

/-- A Python float, modelled as an exact unreduced fraction so that every
operation reduces inside the kernel. Floating point rounding plays no role
in the claims; only which literals parse and their exact values do. -/
structure PyFloat where
  num : Int
  den : Nat
deriving DecidableEq

/-- The rational value of a modelled float; used in statements only. -/
def PyFloat.toRat (f : PyFloat) : Rat := (f.num : Rat) / (f.den : Rat)

/-- Value equality of two modelled floats, by cross multiplication. -/
def PyFloat.eqb (a b : PyFloat) : Bool :=
  a.num * (b.den : Int) == b.num * (a.den : Int)

/-- A Python value as it occurs in channel payloads: None, int, float,
str, bool, or a dict with keys that are either strings or the synthetic
None key. -/
inductive PyVal where
  | none : PyVal
  | int (n : Int) : PyVal
  | float (f : PyFloat) : PyVal
  | str (s : String) : PyVal
  | bool (b : Bool) : PyVal
  | dict (entries : List (Option String × PyVal)) : PyVal

/-- Keys of a Python dict in this code base: a string, or the synthetic None
key used by the merge logic of SpecChannel.update. -/
abbrev PyKey := Option String

/-- A Python dict: association list in insertion order, keys unique by
construction of the operations below. -/
abbrev PyDict := List (PyKey × PyVal)

/-- Numeric view used for Python equality across int, float and bool. -/
def pyNum : PyVal → Option PyFloat
  | PyVal.int n => some (PyFloat.mk n 1)
  | PyVal.float f => some f
  | PyVal.bool b => some (PyFloat.mk (if b then 1 else 0) 1)
  | _ => Option.none

/-- Lookup of a key in a dict (first occurrence). -/
def dlookup (k : PyKey) : PyDict → Option PyVal
  | [] => Option.none
  | kv :: rest => if kv.fst = k then some kv.snd else dlookup k rest

/-- Key membership in a dict. -/
def dmem (k : PyKey) (d : PyDict) : Bool :=
  (dlookup k d).isSome

/-- Assignment d[k] = v: replace in place, else append. -/
def dset (k : PyKey) (v : PyVal) : PyDict → PyDict
  | [] => [(k, v)]
  | kv :: rest => if kv.fst = k then (k, v) :: rest else kv :: dset k v rest

/-- Deletion del d[k] with a silent pass when the key is absent. -/
def ddel (k : PyKey) : PyDict → PyDict
  | [] => []
  | kv :: rest => if kv.fst = k then rest else kv :: ddel k rest

/-- Value of d[k] at call sites that are guarded by a membership test. -/
def dget (k : PyKey) (d : PyDict) : PyVal :=
  (dlookup k d).getD PyVal.none

mutual

/-- Python equality between values: numeric kinds compare by value, strings
by content, None only to None, dicts pointwise by keys (sizes equal and
every entry of the left matched in the right). -/
def pyEq : PyVal → PyVal → Bool
  | PyVal.dict a, PyVal.dict b =>
      (a.length == b.length) && pyEqEntries a b
  | PyVal.str a, PyVal.str b => a == b
  | PyVal.none, PyVal.none => true
  | a, b =>
      match pyNum a, pyNum b with
      | some x, some y => PyFloat.eqb x y
      | _, _ => false
termination_by a _ => sizeOf a

/-- Helper of pyEq: every entry of the first dict has a matching entry in
the second. -/
def pyEqEntries : List (PyKey × PyVal) → List (PyKey × PyVal) → Bool
  | [], _ => true
  | (k, v) :: rest, b =>
      (match dlookup k b with
       | some w => pyEq v w
       | Option.none => false) && pyEqEntries rest b
termination_by a _ => sizeOf a

end

/-- Python inequality as used in the update guards. -/
def pyNe (a b : PyVal) : Bool := !(pyEq a b)

/-- True for PyVal.none, the model of the Python expression v is None. -/
def PyVal.isNone : PyVal → Bool
  | PyVal.none => true
  | _ => false

/-! String helpers. All string manipulation is done over List Char with
structural recursion so that concrete runs reduce inside the kernel. -/

/-- Whitespace characters stripped by the Python int and float parsers. -/
def isSpaceChar (c : Char) : Bool :=
  c == ' ' || c == '\t' || c == '\n' || c == '\r' || c == '\x0b' || c == '\x0c'

/-- Strip leading and trailing whitespace. -/
def pyStrip (cs : List Char) : List Char :=
  ((cs.dropWhile isSpaceChar).reverse.dropWhile isSpaceChar).reverse

/-- Split a character list at every occurrence of the separator, like the
Python str.split method with a one-character separator. -/
def splitOnChar (sep : Char) : List Char → List (List Char)
  | [] => [[]]
  | c :: rest =>
      let r := splitOnChar sep rest
      if c == sep then [] :: r
      else
        match r with
        | [] => [[c]]
        | h :: t => (c :: h) :: t

/-- Python str.split for a one-character separator. -/
def pySplit (s : String) (sep : Char) : List String :=
  (splitOnChar sep s.toList).map (fun l => String.mk l)

/-- Nonempty run of decimal digits. -/
def allDigits (cs : List Char) : Bool :=
  !cs.isEmpty && cs.all Char.isDigit

/-- Value of a run of decimal digits. -/
def digitsToNat (cs : List Char) : Nat :=
  cs.foldl (fun a c => a * 10 + (c.toNat - 48)) 0

/-- The Python int constructor on a string: optional surrounding whitespace,
optional sign, then decimal digits; anything else raises, modelled as
Option.none. -/
def pyIntOfString (s : String) : Option Int :=
  match pyStrip s.toList with
  | [] => Option.none
  | '+' :: rest =>
      if allDigits rest then some (Int.ofNat (digitsToNat rest)) else Option.none
  | '-' :: rest =>
      if allDigits rest then some (-(Int.ofNat (digitsToNat rest))) else Option.none
  | cs =>
      if allDigits cs then some (Int.ofNat (digitsToNat cs)) else Option.none

/-- Mantissa of a float literal: digits, digits.digits, digits. or .digits,
as an exact fraction. -/
def parseMantissa (m : List Char) : Option PyFloat :=
  match splitOnChar '.' m with
  | [i] => if allDigits i then some (PyFloat.mk (Int.ofNat (digitsToNat i)) 1) else Option.none
  | [i, f] =>
      if (i.all Char.isDigit && f.all Char.isDigit) && !(i.isEmpty && f.isEmpty) then
        some (PyFloat.mk (Int.ofNat (digitsToNat i * 10 ^ f.length + digitsToNat f)) (10 ^ f.length))
      else Option.none
  | _ => Option.none

/-- Exponent part of a float literal: optional sign then digits. -/
def parseExp (ex : List Char) : Option Int :=
  match ex with
  | '+' :: r => if allDigits r then some (Int.ofNat (digitsToNat r)) else Option.none
  | '-' :: r => if allDigits r then some (-(Int.ofNat (digitsToNat r))) else Option.none
  | r => if allDigits r then some (Int.ofNat (digitsToNat r)) else Option.none

/-- Scale a fraction by a power of ten. -/
def PyFloat.scale (f : PyFloat) (e : Int) : PyFloat :=
  match e with
  | Int.ofNat k => PyFloat.mk (f.num * Int.ofNat (10 ^ k)) f.den
  | Int.negSucc k => PyFloat.mk f.num (f.den * 10 ^ (k + 1))

/-- Unsigned float literal: mantissa with an optional e exponent. The exotic
inf and nan spellings accepted by CPython do not occur in this code base and
are not modelled. -/
def parseUFloat (cs : List Char) : Option PyFloat :=
  match splitOnChar 'e' (cs.map Char.toLower) with
  | [m] => parseMantissa m
  | [m, ex] =>
      match parseMantissa m, parseExp ex with
      | some q, some e => some (q.scale e)
      | _, _ => Option.none
  | _ => Option.none

/-- Negation of a modelled float. -/
def PyFloat.neg (f : PyFloat) : PyFloat := PyFloat.mk (-f.num) f.den

/-- The Python float constructor on a string, returning the exact value of
the accepted literal. -/
def pyFloatOfString (s : String) : Option PyFloat :=
  match pyStrip s.toList with
  | [] => Option.none
  | '+' :: r => parseUFloat r
  | '-' :: r => (parseUFloat r).map PyFloat.neg
  | cs => parseUFloat cs

/-- The Python int constructor on a value: ints pass through, floats
truncate toward zero, strings parse, everything else raises. -/
def pyIntOf : PyVal → Option Int
  | PyVal.int n => some n
  | PyVal.bool b => some (if b then 1 else 0)
  | PyVal.float q => some (Int.tdiv q.num (Int.ofNat q.den))
  | PyVal.str s => pyIntOfString s
  | _ => Option.none

/-- The Python float constructor on a value. -/
def pyFloatOf : PyVal → Option PyFloat
  | PyVal.int n => some (PyFloat.mk n 1)
  | PyVal.bool b => some (PyFloat.mk (if b then 1 else 0) 1)
  | PyVal.float q => some q
  | PyVal.str s => pyFloatOfString s
  | _ => Option.none

/-- SpecChannel._coerce, SpecChannel.py lines 121 to 129: try int, then
float, else return the value unchanged. -/
def coerce (value : PyVal) : PyVal :=
  match pyIntOf value with
  | some n => PyVal.int n
  | Option.none =>
      match pyFloatOf value with
      | some q => PyVal.float q
      | Option.none => value

/-! Connection layer data. -/

/-- Connection states, SpecConnection.py line 32. -/
def DISCONNECTED : Nat := 1
/-- Port scanning state. -/
def PORTSCANNING : Nat := 2
/-- Waiting for the hello reply. -/
def WAITINGFORHELLO : Nat := 3
/-- Connected state. -/
def CONNECTED : Nat := 4

/-- Lowest port of the scan range, SpecConnection.py line 33. -/
def MIN_PORT : Int := 6510
/-- Highest port of the scan range per the source constant. -/
def MAX_PORT : Int := 6530

/-- Channel registration flags, SpecChannel.py line 19. -/
def DOREG : Nat := 0
/-- Do not register. -/
def DONTREG : Nat := 1
/-- Register after the next reconnect. -/
def WAITREG : Nat := 2

/-- Dispatch modes, SpecEventsDispatcher.py line 9. -/
def UPDATEVALUE : Nat := 1
/-- Fire the receiver on every event. -/
def FIREEVENT : Nat := 2

/-- Exceptions raised by the modelled code. -/
inductive SpecErr where
  | notConnected : SpecErr
  | timeout : SpecErr
  | keyError : SpecErr
  | typeError : SpecErr
deriving DecidableEq

/-- Wire messages built by the SpecMessage module. Modelled from the spec:
SpecMessage.py is not under src/; the claims depend only on which message is
sent, never on its byte encoding. -/
inductive Msg where
  | hello : Msg
  | register (chanName : String) : Msg
  | unregister (chanName : String) : Msg
  | chan_send (chanName : String) (value : PyVal) : Msg
  | chan_read (chanName : String) : Msg
  | cmd (command : String) : Msg
  | cmd_with_return (command : String) : Msg
  | func (command : String) : Msg
  | func_with_return (command : String) : Msg
  | abortMsg : Msg
  | closeMsg : Msg

/-- Byte rendering of a message. Modelled from the spec: the codec is not
under src/; the encoding below only needs to make every frame a nonempty
byte string for the outgoing queue. -/
def Msg.sendingString : Msg → String
  | Msg.hello => "HELLO"
  | Msg.register n => "REGISTER " ++ n
  | Msg.unregister n => "UNREGISTER " ++ n
  | Msg.chan_send n _ => "CHAN_SEND " ++ n
  | Msg.chan_read n => "CHAN_READ " ++ n
  | Msg.cmd c => "CMD " ++ c
  | Msg.cmd_with_return c => "CMD_WITH_RETURN " ++ c
  | Msg.func c => "FUNC " ++ c
  | Msg.func_with_return c => "FUNC_WITH_RETURN " ++ c
  | Msg.abortMsg => "ABORT"
  | Msg.closeMsg => "CLOSE"

/-- Senders known to the event dispatcher in this model: the connection
object or a channel object, the latter identified by its channel name. -/
inductive Sender where
  | conn : Sender
  | chan (name : String) : Sender
deriving DecidableEq

/-- Receiver slots known to the event dispatcher in this model: the bound
methods the source connects, plus opaque user callables. -/
inductive Slot where
  | connError : Slot
  | connSimulationStatusChanged : Slot
  | chanConnected (chanName : String) : Slot
  | chanDisconnected (chanName : String) : Slot
  | chanUpdate (chanName : String) : Slot
  | waiterChannelUpdated : Slot
  | external (k : Nat) : Slot
deriving DecidableEq

/-- One entry of the dispatcher registry: sender, signal name, receiver and
dispatch mode. -/
structure DispEntry where
  sender : Sender
  signal : String
  slot : Slot
  mode : Nat
deriving DecidableEq

/-- SpecEventsDispatcher.connect: a duplicate of the same sender, signal and
receiver only overwrites the dispatch mode, else the receiver is appended. -/
def dispConnect (d : List DispEntry) (sender : Sender) (signal : String) (slot : Slot)
    (mode : Nat) : List DispEntry :=
  if d.any (fun e => e.sender == sender && e.signal == signal && e.slot == slot) then
    d.map (fun e =>
      if e.sender == sender && e.signal == signal && e.slot == slot then
        { e with mode := mode }
      else e)
  else d ++ [DispEntry.mk sender signal slot mode]

/-- An emission recorded by SpecEventsDispatcher.emit. -/
structure Emission where
  sender : Sender
  signal : String
  args : List PyVal

/-- The valueChanged emission of a channel: arguments are the value and the
channel name. -/
def valueChangedEmission (chanName : String) (v : PyVal) : Emission :=
  Emission.mk (Sender.chan chanName) "valueChanged" [v, PyVal.str chanName]

/-- A reply future. Modelled from the spec: SpecReply.py is not under src/.
The claims only need an observation of how often the future was completed,
kept as a counter that completion events would increment; nothing in
SpecConnection.py under src/ ever touches it. -/
structure SpecReply where
  id : Nat
  completions : Nat
deriving DecidableEq

/-- Per channel state, SpecChannel.py lines 42 to 62. The Python attribute
value is None initially and PyVal.none models Python None. -/
structure SpecChannel where
  name : String
  spec_chan_name : String
  access1 : Option String
  access2 : Option String
  registrationFlag : Nat
  isdisconnected : Bool
  registered : Bool
  value : PyVal

/-- Channel name parsing, SpecChannel.py lines 45 to 58: a name of the form
var/NAME with at least one further slash splits into the server visible
name var/NAME and one or two access path components. -/
def parseChanName (channelName : String) : String × Option String × Option String :=
  let cs := channelName.toList
  if ([ 'v', 'a', 'r', '/' ].isPrefixOf cs && (cs.drop 4).elem '/') then
    let l := splitOnChar '/' cs
    let spec := String.mk (l.getD 0 [] ++ '/' :: l.getD 1 [])
    if l.length == 3 then
      (spec, some (String.mk (l.getD 2 [])), Option.none)
    else
      (spec, some (String.mk (l.getD 2 [])), some (String.mk (l.getD 3 [])))
  else (channelName, Option.none, Option.none)

/-! SpecChannel.update, SpecChannel.py lines 131 to 195. -/

/-- Result of one update call: the new channel state, the emissions fired,
and the exception that escaped the method, if any. -/
structure UpdResult where
  chan : SpecChannel
  emits : List Emission
  err : Option SpecErr

/-- One iteration of the deleted merge loop, lines 158 to 171: an incoming
mapping value deletes the matching inner keys of the cached entry and then
collapses an inner mapping reduced to the single synthetic None key to that
leaf; an incoming scalar deletes the key. Missing outer keys raise KeyError
at the length test of line 165, and a non mapping cached entry raises
TypeError either at the inner del or at the length or containment test;
partial mutation before the raise is kept, as in CPython. -/
def updDelEntry (cv : PyDict) (key : PyKey) (v : PyVal) : PyDict × Option SpecErr :=
  match v with
  | PyVal.dict d =>
      match dlookup key cv with
      | some (PyVal.dict inner) =>
          let inner2 := d.foldl (fun acc kv => ddel kv.fst acc) inner
          let cv2 := dset key (PyVal.dict inner2) cv
          if inner2.length == 1 && dmem Option.none inner2 then
            (dset key (dget Option.none inner2) cv2, Option.none)
          else (cv2, Option.none)
      | some (PyVal.str s) =>
          if d.isEmpty then
            if s.length == 1 then (cv, some SpecErr.typeError) else (cv, Option.none)
          else (cv, some SpecErr.typeError)
      | some _ => (cv, some SpecErr.typeError)
      | Option.none => (cv, some SpecErr.keyError)
  | _ => (ddel key cv, Option.none)

/-- The deleted merge loop over the incoming mapping, stopping at the first
raised exception while keeping the mutations made so far. -/
def updateDictDeleted : PyDict → List (PyKey × PyVal) → PyDict × Option SpecErr
  | cv, [] => (cv, Option.none)
  | cv, kv :: rest =>
      match updDelEntry cv kv.fst kv.snd with
      | (cv2, Option.none) => updateDictDeleted cv2 rest
      | (cv2, some e) => (cv2, some e)

/-- The Python dict.update method: assign every entry of src into dst. -/
def pyDictUpdate (dst src : PyDict) : PyDict :=
  src.foldl (fun acc kv => dset kv.fst kv.snd acc) dst

/-- One iteration of the non deleted merge loop, lines 173 to 186: a mapping
merges into a cached mapping, promotes a cached scalar under the synthetic
None key, or is assigned when the key is new; a scalar lands under the
synthetic None key of a cached mapping, else is assigned. -/
def updMergeEntry (cv : PyDict) (k1 : PyKey) (v1 : PyVal) : PyDict :=
  match v1 with
  | PyVal.dict d =>
      match dlookup k1 cv with
      | some (PyVal.dict inner) => dset k1 (PyVal.dict (pyDictUpdate inner d)) cv
      | some other => dset k1 (PyVal.dict (pyDictUpdate [(Option.none, other)] d)) cv
      | Option.none => dset k1 (PyVal.dict d) cv
  | _ =>
      match dlookup k1 cv with
      | some (PyVal.dict inner) => dset k1 (PyVal.dict (dset Option.none v1 inner)) cv
      | _ => dset k1 v1 cv

/-- The non deleted merge loop over the incoming mapping. -/
def updateDictMerge (cv : PyDict) (pv : List (PyKey × PyVal)) : PyDict :=
  pv.foldl (fun acc kv => updMergeEntry acc kv.fst kv.snd) cv

/-- Containment of one character list inside another, for the Python
substring test. -/
def charsContain (hay : List Char) (needle : List Char) : Bool :=
  match hay with
  | [] => needle.isEmpty
  | _ :: rest => needle.isPrefixOf hay || charsContain rest needle

/-- SpecChannel.update. The first part, lines 133 to 153, handles channels
with an access path when the payload is a mapping; the second part, lines
155 to 195, merges mapping payloads into a cached mapping and otherwise
replaces the cached value wholesale. A Python string containment test of a
sub access key inside a cached string value is a substring test followed by
a TypeError at the indexing, modelled accordingly. -/
def SpecChannel.update (ch : SpecChannel) (channelValue : PyVal) (deleted : Bool)
    (force : Bool) : UpdResult :=
  match channelValue, ch.access1 with
  | PyVal.dict cvd, some a1 =>
      if dmem (some a1) cvd then
        if deleted then UpdResult.mk ch [valueChangedEmission ch.name PyVal.none] Option.none
        else
          match ch.access2 with
          | Option.none =>
              let incoming := dget (some a1) cvd
              if force || ch.value.isNone || pyNe ch.value incoming then
                let newVal :=
                  match incoming with
                  | PyVal.dict d => PyVal.dict d
                  | v => coerce v
                UpdResult.mk { ch with value := newVal }
                  [valueChangedEmission ch.name newVal] Option.none
              else UpdResult.mk ch [] Option.none
          | some a2 =>
              match dget (some a1) cvd with
              | PyVal.dict inner =>
                  if dmem (some a2) inner then
                    let leaf := dget (some a2) inner
                    if force || ch.value.isNone || pyNe ch.value leaf then
                      let newVal := coerce leaf
                      UpdResult.mk { ch with value := newVal }
                        [valueChangedEmission ch.name newVal] Option.none
                    else UpdResult.mk ch [] Option.none
                  else UpdResult.mk ch [] Option.none
              | PyVal.str s =>
                  if charsContain s.toList a2.toList then UpdResult.mk ch [] (some SpecErr.typeError)
                  else UpdResult.mk ch [] Option.none
              | _ => UpdResult.mk ch [] (some SpecErr.typeError)
      else UpdResult.mk ch [] Option.none
  | _, _ =>
      match ch.value, channelValue with
      | PyVal.dict cv, PyVal.dict pv =>
          if deleted then
            match updateDictDeleted cv pv with
            | (cv2, Option.none) =>
                UpdResult.mk { ch with value := PyVal.dict cv2 }
                  [valueChangedEmission ch.name (PyVal.dict cv2)] Option.none
            | (cv2, some e) =>
                UpdResult.mk { ch with value := PyVal.dict cv2 } [] (some e)
          else
            let cv2 := updateDictMerge cv pv
            UpdResult.mk { ch with value := PyVal.dict cv2 }
              [valueChangedEmission ch.name (PyVal.dict cv2)] Option.none
      | _, _ =>
          let newVal := if deleted then PyVal.none else channelValue
          UpdResult.mk { ch with value := newVal }
            [valueChangedEmission ch.name newVal] Option.none

/-! The connection object, SpecConnection.py lines 163 to 557. -/

/-- State of one SpecConnection object. Python object attributes become
fields; in addition the model keeps four observation fields: dispatcher is
the slice of the process wide dispatcher registry touched by this
connection, emitted is the trace of emit calls, sent_history is the trace
of messages handed to the private send routine, and caught is the trace of
exceptions swallowed by the blanket handler of registerChannel, which the
source only logs. serialNumber models the serial counter of the SpecMessage
module, which is not under src/. The socket attribute of the source is
created lazily on connect; socket_open stands for a live socket object. -/
structure SpecConnection where
  state : Nat
  connected : Bool
  scanport : Bool
  scanname : String
  host : String
  port : Option Int
  registeredChannels : List (String × SpecChannel)
  registeredReplies : List (Nat × SpecReply)
  serverVersion : Option Int
  simulationMode : PyVal
  connected_event : Bool
  completed_writing_event : Bool
  outgoing_queue : List String
  socket_write_event : Bool
  socket_open : Bool
  dispatcher : List DispEntry
  emitted : List Emission
  sent_history : List Msg
  caught : List SpecErr
  serialNumber : Nat

/-- SpecConnection.isSpecConnected, line 313. -/
def isSpecConnected (c : SpecConnection) : Bool :=
  c.state == CONNECTED

/-- The private send routine, lines 543 to 557: enqueue the rendered frame;
when no write event is armed, optionally clear the completed writing event,
arm the writer and, with wait set, block until the buffer has drained. When
a write event is already armed nothing else happens. The returned Bool
records whether the caller blocked on the completed writing event. -/
def send_msg_no_reply (c : SpecConnection) (m : Msg) (wait : Bool) :
    SpecConnection × Bool :=
  let c := { c with outgoing_queue := c.outgoing_queue ++ [m.sendingString],
                    sent_history := c.sent_history ++ [m] }
  if c.socket_write_event then (c, false)
  else
    let c := if wait then { c with completed_writing_event := false } else c
    ({ c with socket_write_event := true }, wait)

/-- Concatenation of the outgoing queue, the buffer of lines 533 and 539. -/
def joinStrings (l : List String) : String :=
  l.foldl (fun a b => a ++ b) ""

/-- Drop of the first n characters of a string, for the sent part of the
buffer. -/
def strDrop (n : Nat) (s : String) : String :=
  String.mk (s.toList.drop n)

/-- The writer callback, lines 532 to 540: with an empty buffer disarm the
writer and set the completed writing event, else send some bytes and keep
the rest as the single buffer entry. The number of bytes accepted by the
socket is the parameter. -/
def do_send_data (c : SpecConnection) (sent_bytes : Nat) : SpecConnection :=
  let buffer := joinStrings c.outgoing_queue
  if buffer = "" then
    { c with socket_write_event := false, completed_writing_event := true }
  else
    { c with outgoing_queue := [strDrop sent_bytes buffer] }

/-- A run of writer callbacks with the byte counts the socket accepted. -/
def drainRun (c : SpecConnection) (bs : List Nat) : SpecConnection :=
  bs.foldl do_send_data c

/-- SpecConnection.send_msg_register, lines 465 to 474. -/
def send_msg_register (c : SpecConnection) (chanName : String) :
    SpecConnection × Option SpecErr :=
  if isSpecConnected c then ((send_msg_no_reply c (Msg.register chanName) false).fst, Option.none)
  else (c, some SpecErr.notConnected)

/-- SpecConnection.send_msg_unregister, lines 477 to 486. -/
def send_msg_unregister (c : SpecConnection) (chanName : String) :
    SpecConnection × Option SpecErr :=
  if isSpecConnected c then ((send_msg_no_reply c (Msg.unregister chanName) false).fst, Option.none)
  else (c, some SpecErr.notConnected)

/-- Result of the channel write operation: new state, whether the caller
blocked until the buffer drained, and the exception, if any. -/
structure ChanSendResult where
  conn : SpecConnection
  blocked : Bool
  err : Option SpecErr

/-- SpecConnection.send_msg_chan_send, lines 452 to 462. -/
def send_msg_chan_send (c : SpecConnection) (chanName : String) (value : PyVal)
    (wait : Bool) : ChanSendResult :=
  if isSpecConnected c then
    let r := send_msg_no_reply c (Msg.chan_send chanName value) wait
    ChanSendResult.mk r.fst r.snd Option.none
  else ChanSendResult.mk c false (some SpecErr.notConnected)

/-- The Python 2 comparison serverVersion < 3, where None compares below
every integer. -/
def py2VersionLt3 : Option Int → Bool
  | Option.none => true
  | some v => v < 3

/-- SpecConnection.send_msg_func, lines 420 to 432: on a version below 3
the source only logs an error message and falls through; else it requires a
connected state and sends the frame. -/
def send_msg_func (c : SpecConnection) (cmd : String) : SpecConnection × Option SpecErr :=
  if py2VersionLt3 c.serverVersion then (c, Option.none)
  else if isSpecConnected c then
    ((send_msg_no_reply c (Msg.func cmd) false).fst, Option.none)
  else (c, some SpecErr.notConnected)

/-- SpecConnection.send_msg_func_with_return, lines 387 to 405, with the
reply registration of lines 510 to 529. The returned Option Nat is the id
of the registered reply future, None when nothing was sent. Reply ids come
from the serial counter of the SpecMessage module, modelled from the spec
as the serialNumber field. -/
def send_msg_func_with_return (c : SpecConnection) (cmd : String) :
    SpecConnection × Option Nat × Option SpecErr :=
  if py2VersionLt3 c.serverVersion then (c, Option.none, Option.none)
  else if isSpecConnected c then
    let rid := c.serialNumber
    let c := { c with serialNumber := c.serialNumber + 1,
                      registeredReplies := c.registeredReplies ++ [(rid, SpecReply.mk rid 0)] }
    ((send_msg_no_reply c (Msg.func_with_return cmd) false).fst, some rid, Option.none)
  else (c, Option.none, some SpecErr.notConnected)

/-- SpecConnection.specDisconnected, lines 330 to 339: always set the state
to DISCONNECTED; only when the previous state was CONNECTED emit the
disconnected signal and clear the connected latch. -/
def specDisconnected (c : SpecConnection) : SpecConnection :=
  let old_state := c.state
  let c := { c with state := DISCONNECTED }
  if old_state == CONNECTED then
    { c with emitted := c.emitted ++ [Emission.mk Sender.conn "disconnected" []],
             connected_event := false }
  else c

/-- SpecConnection.handle_close, lines 341 to 348: drop the connected flag
and the learned version, close the socket if any, empty the channel
registry, and run specDisconnected. The registeredReplies table is not
touched by the source. -/
def handle_close (c : SpecConnection) : SpecConnection :=
  let c := { c with connected := false, serverVersion := Option.none }
  let c := if c.socket_open then { c with socket_open := false } else c
  let c := { c with registeredChannels := [] }
  specDisconnected c

/-! SpecChannel methods that talk to the connection. -/

/-- A channel method step: the new channel state, the new connection state
and the exception, if any. -/
structure ChanStep where
  chan : SpecChannel
  conn : SpecConnection
  err : Option SpecErr

/-- SpecChannel.register, SpecChannel.py lines 105 to 118: a channel whose
name carries an access path returns immediately; else send the register
frame for the server visible name and set the registered flag. An exception
from the send leaves the flag untouched. -/
def SpecChannel.registerOp (ch : SpecChannel) (c : SpecConnection) : ChanStep :=
  if ch.spec_chan_name != ch.name then ChanStep.mk ch c Option.none
  else
    let s := send_msg_register c ch.spec_chan_name
    match s.snd with
    | some e => ChanStep.mk ch s.fst (some e)
    | Option.none => ChanStep.mk { ch with registered := true } s.fst Option.none

/-- SpecChannel.unregister, lines 95 to 102: send the unregister frame for
the server visible name, then drop the flag and the cached value. An
exception from the send leaves both untouched. -/
def SpecChannel.unregisterOp (ch : SpecChannel) (c : SpecConnection) : ChanStep :=
  let s := send_msg_unregister c ch.spec_chan_name
  match s.snd with
  | some e => ChanStep.mk ch s.fst (some e)
  | Option.none =>
      ChanStep.mk { ch with registered := false, value := PyVal.none } s.fst Option.none

/-- SpecChannel.connected, lines 71 to 85: promote WAITREG to DOREG on the
first connect, drop the disconnected flag, and register when DOREG and not
yet registered. -/
def SpecChannel.connectedSlot (ch : SpecChannel) (c : SpecConnection) : ChanStep :=
  let ch := if ch.registrationFlag == WAITREG && ch.isdisconnected then
              { ch with registrationFlag := DOREG } else ch
  let ch := { ch with isdisconnected := false }
  if ch.registrationFlag == DOREG && !ch.registered then SpecChannel.registerOp ch c
  else ChanStep.mk ch c Option.none

/-- SpecChannel.disconnected, lines 88 to 92: drop the cached value, mark
disconnected, drop the registered flag. -/
def SpecChannel.disconnectedSlot (ch : SpecChannel) : SpecChannel :=
  { ch with value := PyVal.none, isdisconnected := true, registered := false }

/-- The SpecChannel constructor, lines 29 to 68: parse the name into the
server visible name and the access path, connect the channel to the
connected and disconnected signals of the connection, and when the
connection is already connected run the connected callback at once. -/
def SpecChannel.initChan (c : SpecConnection) (channelName : String)
    (registrationFlag : Nat) : ChanStep :=
  let pr := parseChanName channelName
  let ch : SpecChannel :=
    SpecChannel.mk channelName pr.fst pr.snd.fst pr.snd.snd registrationFlag true false PyVal.none
  let d1 := dispConnect c.dispatcher Sender.conn "connected"
    (Slot.chanConnected channelName) UPDATEVALUE
  let d2 := dispConnect d1 Sender.conn "disconnected"
    (Slot.chanDisconnected channelName) UPDATEVALUE
  let c := { c with dispatcher := d2 }
  if isSpecConnected c then SpecChannel.connectedSlot ch c
  else ChanStep.mk ch c Option.none

/-! SpecConnection channel registry operations. -/

/-- Set the registered flag of the registry entry of the given name, the
effect of line 258 on the object aliased in the registry. -/
def setRegisteredTrue (l : List (String × SpecChannel)) (n : String) :
    List (String × SpecChannel) :=
  l.map (fun p => if p.fst = n then (p.fst, { p.snd with registered := true }) else p)

/-- Replace the registry entry of the given name. -/
def setChanEntry (l : List (String × SpecChannel)) (n : String) (ch : SpecChannel) :
    List (String × SpecChannel) :=
  l.map (fun p => if p.fst = n then (p.fst, ch) else p)

/-- SpecConnection.registerChannel, lines 227 to 269, with explicit fuel for
the one level of recursion of line 257; the public entry always supplies
enough fuel because the recursive call passes a name without an access
path, which does not recurse again. The body is the try block of lines 252
to 267; the returned Option SpecErr is the exception the blanket except of
line 268 would swallow. The early return of line 247 for a None dispatch
mode is not modelled because the dispatch mode is a plain Nat here and no
caller in the source passes None. -/
def registerChannelGo : Nat → SpecConnection → String → Slot → Nat → Nat →
    SpecConnection × Option SpecErr
  | 0, c, _, _, _, _ => (c, Option.none)
  | Nat.succ fuel, c0, chanName, receiverSlot, registrationFlag, dispatchMode =>
      let step1 : SpecConnection × Option SpecErr :=
        if (List.lookup chanName c0.registeredChannels).isSome then (c0, Option.none)
        else
          let r := SpecChannel.initChan c0 chanName registrationFlag
          match r.err with
          | some e => (r.conn, some e)
          | Option.none =>
              let c1 := { r.conn with
                registeredChannels := r.conn.registeredChannels ++ [(chanName, r.chan)] }
              let c2 :=
                if r.chan.spec_chan_name != chanName then
                  (registerChannelGo fuel c1 r.chan.spec_chan_name
                    (Slot.chanUpdate chanName) DOREG UPDATEVALUE).fst
                else c1
              ({ c2 with registeredChannels := setRegisteredTrue c2.registeredChannels chanName },
               Option.none)
      match step1 with
      | (c, some e) => (c, some e)
      | (c3, Option.none) =>
          match List.lookup chanName c3.registeredChannels with
          | Option.none => (c3, some SpecErr.keyError)
          | some channel =>
              let d4 := dispConnect c3.dispatcher (Sender.chan chanName) "valueChanged"
                receiverSlot dispatchMode
              let c4 := { c3 with dispatcher := d4 }
              match List.lookup channel.spec_chan_name c4.registeredChannels with
              | Option.none => (c4, some SpecErr.keyError)
              | some specChan =>
                  if specChan.value.isNone then (c4, Option.none)
                  else
                    let u := SpecChannel.update channel specChan.value false true
                    let c5 := { c4 with
                      registeredChannels := setChanEntry c4.registeredChannels chanName u.chan,
                      emitted := c4.emitted ++ u.emits }
                    (c5, u.err)

/-- The public registerChannel: run the body and swallow any exception into
the caught log, as the blanket except of line 268 does. -/
def registerChannel (c : SpecConnection) (chanName : String) (receiverSlot : Slot)
    (registrationFlag : Nat) (dispatchMode : Nat) : SpecConnection :=
  let r := registerChannelGo 2 c chanName receiverSlot registrationFlag dispatchMode
  match r.snd with
  | some e => { r.fst with caught := r.fst.caught ++ [e] }
  | Option.none => r.fst

/-- SpecConnection.unregisterChannel, lines 272 to 282: when the name is
registered, run the channel unregister method and delete the entry. An
exception from the unregister propagates and the entry stays. -/
def unregisterChannel (c : SpecConnection) (chanName : String) :
    SpecConnection × Option SpecErr :=
  match List.lookup chanName c.registeredChannels with
  | Option.none => (c, Option.none)
  | some ch =>
      let s := SpecChannel.unregisterOp ch c
      match s.err with
      | some e => (s.conn, some e)
      | Option.none =>
          ({ s.conn with registeredChannels :=
              s.conn.registeredChannels.filter (fun p => p.fst ≠ chanName) }, Option.none)

/-- SpecConnection.getChannel, lines 285 to 299: a registered name returns
its entry, else a fresh unregistered DONTREG channel is created without
touching the registry. -/
def getChannel (c : SpecConnection) (chanName : String) : ChanStep :=
  match List.lookup chanName c.registeredChannels with
  | Option.none => SpecChannel.initChan c chanName DONTREG
  | some ch => ChanStep.mk ch c Option.none

/-- SpecConnection.error, lines 302 to 306: log and emit the error signal. -/
def connErrorSlot (c : SpecConnection) (err : PyVal) : SpecConnection :=
  { c with emitted := c.emitted ++ [Emission.mk Sender.conn "error" [err]] }

/-- SpecConnection.simulationStatusChanged, lines 309 to 310. -/
def simulationStatusChanged (c : SpecConnection) (simulationMode : PyVal) : SpecConnection :=
  { c with simulationMode := simulationMode }

/-- The SpecConnection constructor, lines 172 to 209: initial attributes,
the host and port parse with its fallback to scan mode, then the
registration of the two service channels. The source leaves the socket and
serverVersion attributes unset until a connect; the model starts them as
absent and None. -/
def newSpecConnection (specVersion : String) : SpecConnection :=
  let tmp := pySplit specVersion ':'
  let host := tmp.getD 0 ""
  let portInfo : Option Int × String × Bool :=
    if tmp.length > 1 then
      match pyIntOfString (tmp.getD 1 "") with
      | some n => (some n, "", false)
      | Option.none => (Option.none, tmp.getD 1 "", true)
    else (some 6789, "", false)
  let c : SpecConnection := {
    state := DISCONNECTED, connected := false,
    scanport := portInfo.snd.snd, scanname := portInfo.snd.fst,
    host := host, port := portInfo.fst,
    registeredChannels := [], registeredReplies := [],
    serverVersion := Option.none, simulationMode := PyVal.bool false,
    connected_event := false, completed_writing_event := false,
    outgoing_queue := [], socket_write_event := false, socket_open := false,
    dispatcher := [], emitted := [], sent_history := [], caught := [],
    serialNumber := 1 }
  let c := registerChannel c "error" Slot.connError DOREG FIREEVENT
  registerChannel c "status/simulate" Slot.connSimulationStatusChanged DOREG UPDATEVALUE

/-! SpecWaitObject.waitChannelUpdate, SpecWaitObject.py lines 103 to 136. -/

/-- Whether the awaited channel update arrives before the surrounding
timeout fires. The timeout of the source raises SpecClientTimeoutError at
the waiting statement, inside the with block and before the trailing
unregister of line 136; there is no finally clause. -/
inductive WaitOutcome where
  | updated : WaitOutcome
  | timedOut : WaitOutcome

/-- Control flow of waitChannelUpdate: wait for the connected latch, fetch
or create the channel, register it through the connection when it is not
registered (remembering that the registration was ours), wait, and only on
a normal return unregister again when the registration was ours. A timeout
raises at the wait and skips the unregister. The waiter slot is the
channelUpdated bound method. -/
def waitChannelUpdate (c : SpecConnection) (chanName : String) (outcome : WaitOutcome) :
    SpecConnection × Option SpecErr :=
  if !c.connected_event then (c, some SpecErr.timeout)
  else
    let g := getChannel c chanName
    if !g.chan.registered then
      let c1 := registerChannel g.conn chanName Slot.waiterChannelUpdated DOREG UPDATEVALUE
      match outcome with
      | WaitOutcome.timedOut => (c1, some SpecErr.timeout)
      | WaitOutcome.updated => unregisterChannel c1 chanName
    else
      let d := dispConnect g.conn.dispatcher (Sender.chan chanName) "valueChanged"
        Slot.waiterChannelUpdated UPDATEVALUE
      let c1 := { g.conn with dispatcher := d }
      match outcome with
      | WaitOutcome.timedOut => (c1, some SpecErr.timeout)
      | WaitOutcome.updated => (c1, Option.none)

/-! The dial loop, SpecConnection.py lines 35 to 62 and the hello check of
lines 136 to 155. -/

/-- The port stepping at the top of each makeConnection iteration, lines 46
to 50: a missing port or a port above MAX_PORT resets to MIN_PORT, else the
port advances by one; the stepped value is the port attempted. -/
def scanAttempt (p : Option Int) : Int :=
  match p with
  | Option.none => MIN_PORT
  | some q => if q > MAX_PORT then MIN_PORT else q + 1

/-- The attempted port after each non committing attempt: a refused TCP
connect leaves the port at the attempted value; an identity mismatch
decrements it on line 60 and increments it back on line 149, so the next
iteration steps from the attempted value in both cases. -/
def attemptSeq : Nat → Int
  | 0 => scanAttempt Option.none
  | Nat.succ n => scanAttempt (some (attemptSeq n))

/-- The environment of a dial: which identity, if any, listens on each
port. -/
def ScanPeers := Int → Option String

/-- The dial loop against an environment: at each iteration attempt the
stepped port; commit when a peer listens there and its hello identity
equals the scan name; otherwise continue from the attempted port. The fuel
bounds the number of iterations of the unbounded while True loop; None
means the loop was still running after that many attempts, since the
source has no failure exit. -/
def scanRun (peers : ScanPeers) (scanname : String) : Nat → Option Int → Option Int
  | 0, _ => Option.none
  | Nat.succ fuel, p =>
      let a := scanAttempt p
      match peers a with
      | some id => if id = scanname then some a else scanRun peers scanname fuel (some a)
      | Option.none => scanRun peers scanname fuel (some a)

/-- The port state seen at the start of the attempt with the given index:
None before the first attempt, afterwards the previously attempted port. -/
def preState : Nat → Option Int
  | 0 => Option.none
  | Nat.succ k => some (attemptSeq k)

/-! The delete merge as worded by the specification, for the refinement
statement of the corresponding claim. -/

/-- Specification wording for one incoming mapping value: delete the
matching inner keys of the cached inner mapping; if this leaves the inner
mapping with only the synthetic None key, collapse it to that leaf. -/
def specDeleteInner (inner : PyDict) (d : PyDict) : PyVal :=
  let pruned := d.foldl (fun acc kv => ddel kv.fst acc) inner
  if pruned.length == 1 && dmem Option.none pruned then dget Option.none pruned
  else PyVal.dict pruned

/-- Specification wording of the whole deleted merge: per incoming key, a
mapping value prunes the matching cached inner mapping, a scalar value
deletes the key. -/
def deletedMergeSpec : PyDict → List (PyKey × PyVal) → PyDict
  | cv, [] => cv
  | cv, (k, PyVal.dict d) :: rest =>
      let cv2 :=
        match dlookup k cv with
        | some (PyVal.dict inner) => dset k (specDeleteInner inner d) cv
        | _ => cv
      deletedMergeSpec cv2 rest
  | cv, (k, _) :: rest => deletedMergeSpec (ddel k cv) rest

/-! Concrete states used by the counterexamples and witnesses. -/

/-- A freshly constructed connection, still disconnected. -/
def conn0 : SpecConnection := newSpecConnection "host:6789"

/-- The same connection brought into the connected state, as the hello
handler of SpecConnection.py lines 136 to 141 and specConnected do. -/
def connC : SpecConnection :=
  { conn0 with state := CONNECTED, connected := true, connected_event := true,
               socket_open := true, serverVersion := some 3 }

/-- A connected peer that advertised protocol version 2. -/
def connV2 : SpecConnection := { connC with serverVersion := some 2 }

/-- A connected state whose writer is armed on an undrained buffer. -/
def connArmed : SpecConnection :=
  { connC with socket_write_event := true, outgoing_queue := ["X"] }

/-- A connected state with one pending, uncompleted reply future. -/
def connPending : SpecConnection :=
  { connC with registeredReplies := [(5, SpecReply.mk 5 0)] }

/-- The cached mapping of the delete merge example. -/
def exampleCacheM : PyDict :=
  [(some "a", PyVal.dict [(some "k1", PyVal.int 1), (some "k2", PyVal.int 2)]),
   (some "b", PyVal.int 3)]

/-- The channel of the delete merge example: name var/M, no access path,
cached mapping value. -/
def exampleChanM : SpecChannel :=
  SpecChannel.mk "var/M" "var/M" Option.none Option.none DOREG false true
    (PyVal.dict exampleCacheM)

/-- The DELETED payload of the delete merge example. -/
def examplePayloadM : List (PyKey × PyVal) :=
  [(some "a", PyVal.dict [(some "k1", PyVal.none)]), (some "b", PyVal.none)]

/-- A channel var/T/x with a one component access path and no cached
value. -/
def exampleChanT : SpecChannel :=
  SpecChannel.mk "var/T/x" "var/T" (some "x") Option.none DOREG false true PyVal.none

/-! Helper lemmas about Python dicts as association lists. -/

theorem dset_dset_same (k : PyKey) (a b : PyVal) (cv : PyDict) :
    dset k a (dset k b cv) = dset k a cv := by
  induction cv with
  | nil => simp [dset]
  | cons p rest ih =>
      by_cases hp : p.fst = k
      · simp [dset, hp]
      · simp [dset, hp, ih]

theorem dlookup_dset_ne {k2 k : PyKey} (h : k2 ≠ k) (v : PyVal) (cv : PyDict) :
    dlookup k2 (dset k v cv) = dlookup k2 cv := by
  have hkk : ¬ (k = k2) := fun he => h he.symm
  induction cv with
  | nil => simp [dset, dlookup, hkk]
  | cons p rest ih =>
      obtain ⟨pk, pv2⟩ := p
      by_cases hp : pk = k
      · subst hp
        simp [dset, dlookup, hkk]
      · by_cases hq : pk = k2
        · subst hq
          simp [dset, dlookup, hp]
        · simp [dset, dlookup, hp, hq, ih]

theorem dlookup_ddel_ne {k2 k : PyKey} (h : k2 ≠ k) (cv : PyDict) :
    dlookup k2 (ddel k cv) = dlookup k2 cv := by
  have hkk : ¬ (k = k2) := fun he => h he.symm
  induction cv with
  | nil => rfl
  | cons p rest ih =>
      obtain ⟨pk, pv2⟩ := p
      by_cases hp : pk = k
      · subst hp
        simp [ddel, dlookup, hkk]
      · by_cases hq : pk = k2
        · subst hq
          simp [ddel, dlookup, hp]
        · simp [ddel, dlookup, hp, hq, ih]

/-! Helper lemmas about the registry as an association list. -/

theorem lookup_none_key_ne {l : List (String × SpecChannel)} {n : String}
    (h : List.lookup n l = Option.none) : ∀ p ∈ l, p.fst ≠ n := by
  induction l with
  | nil => intro p hp; cases hp
  | cons q l ih =>
      intro p hp
      obtain ⟨k, v⟩ := q
      rw [List.lookup] at h
      cases hbeq : (n == k) with
      | true => rw [hbeq] at h; cases h
      | false =>
          rw [hbeq] at h
          cases hp with
          | head => exact fun he => (beq_eq_false_iff_ne.mp hbeq) he.symm
          | tail _ hmem => exact ih h p hmem

theorem lookup_append_absent {l : List (String × SpecChannel)} {n : String}
    (ch : SpecChannel) (h : List.lookup n l = Option.none) :
    List.lookup n (l ++ [(n, ch)]) = some ch := by
  induction l with
  | nil => simp [List.lookup]
  | cons q l ih =>
      obtain ⟨k, v⟩ := q
      rw [List.lookup] at h
      cases hbeq : (n == k) with
      | true => rw [hbeq] at h; cases h
      | false =>
          rw [hbeq] at h
          show List.lookup n ((k, v) :: (l ++ [(n, ch)])) = some ch
          rw [List.lookup, hbeq]
          exact ih h

theorem setRegisteredTrue_absent {l : List (String × SpecChannel)} {n : String}
    (h : List.lookup n l = Option.none) : setRegisteredTrue l n = l := by
  induction l with
  | nil => rfl
  | cons q l ih =>
      obtain ⟨k, v⟩ := q
      rw [List.lookup] at h
      cases hbeq : (n == k) with
      | true => rw [hbeq] at h; cases h
      | false =>
          rw [hbeq] at h
          have hne : k ≠ n := fun he => (beq_eq_false_iff_ne.mp hbeq) he.symm
          show setRegisteredTrue ((k, v) :: l) n = (k, v) :: l
          unfold setRegisteredTrue
          simp only [List.map_cons]
          rw [if_neg hne]
          have := ih h
          unfold setRegisteredTrue at this
          rw [this]

theorem setRegisteredTrue_append {l : List (String × SpecChannel)} {n : String}
    (ch : SpecChannel) (h : List.lookup n l = Option.none) :
    setRegisteredTrue (l ++ [(n, ch)]) n = l ++ [(n, { ch with registered := true })] := by
  unfold setRegisteredTrue
  rw [List.map_append]
  have h1 : List.map (fun p => if p.fst = n then (p.fst, { p.snd with registered := true }) else p) l = l := by
    have := setRegisteredTrue_absent h
    unfold setRegisteredTrue at this
    exact this
  rw [h1]
  simp

theorem filter_append_absent {l : List (String × SpecChannel)} {n : String}
    (ch : SpecChannel) (h : List.lookup n l = Option.none) :
    (l ++ [(n, ch)]).filter (fun p => p.fst ≠ n) = l := by
  rw [List.filter_append]
  have h1 : l.filter (fun p => p.fst ≠ n) = l := by
    rw [List.filter_eq_self]
    intro p hp
    have := lookup_none_key_ne h p hp
    simp [this]
  rw [h1]
  simp

/-! Projection lemmas for the send layer. -/

theorem send_msg_no_reply_fst (c : SpecConnection) (m : Msg) (w : Bool) :
    (send_msg_no_reply c m w).fst.state = c.state ∧
    (send_msg_no_reply c m w).fst.registeredChannels = c.registeredChannels ∧
    (send_msg_no_reply c m w).fst.dispatcher = c.dispatcher ∧
    (send_msg_no_reply c m w).fst.caught = c.caught ∧
    (send_msg_no_reply c m w).fst.emitted = c.emitted ∧
    (send_msg_no_reply c m w).fst.registeredReplies = c.registeredReplies ∧
    (send_msg_no_reply c m w).fst.connected_event = c.connected_event ∧
    (send_msg_no_reply c m w).fst.serverVersion = c.serverVersion ∧
    (send_msg_no_reply c m w).fst.sent_history = c.sent_history ++ [m] := by
  unfold send_msg_no_reply
  dsimp only
  split
  · exact ⟨rfl, rfl, rfl, rfl, rfl, rfl, rfl, rfl, rfl⟩
  · cases w <;> exact ⟨rfl, rfl, rfl, rfl, rfl, rfl, rfl, rfl, rfl⟩

/-! Evaluation lemmas for registerChannel on a fresh plain channel name. -/

theorem registerChannelGo_fresh_plain_connected
    (c : SpecConnection) (n : String) (slot : Slot) (mode : Nat)
    (h1 : isSpecConnected c = true)
    (h2 : List.lookup n c.registeredChannels = Option.none)
    (h3 : parseChanName n = (n, Option.none, Option.none)) :
    registerChannelGo 2 c n slot DOREG mode =
      ({ c with
          dispatcher := dispConnect (dispConnect (dispConnect c.dispatcher Sender.conn
            "connected" (Slot.chanConnected n) UPDATEVALUE) Sender.conn "disconnected"
            (Slot.chanDisconnected n) UPDATEVALUE) (Sender.chan n) "valueChanged" slot mode,
          registeredChannels := c.registeredChannels ++
            [(n, SpecChannel.mk n n Option.none Option.none DOREG false true PyVal.none)],
          outgoing_queue := c.outgoing_queue ++ [(Msg.register n).sendingString],
          sent_history := c.sent_history ++ [Msg.register n],
          socket_write_event := true }, Option.none) := by
  have h1s : (c.state == CONNECTED) = true := h1
  by_cases hw : c.socket_write_event = true
  all_goals
    simp only [registerChannelGo, h2, Option.isSome_none, Bool.false_eq_true, if_false,
      SpecChannel.initChan, h3, isSpecConnected, SpecChannel.connectedSlot,
      SpecChannel.registerOp, send_msg_register, send_msg_no_reply, h1s]
  all_goals
    simp only [DOREG, WAITREG, DONTREG, UPDATEVALUE]
  all_goals
    simp [h2, hw, setRegisteredTrue_append, lookup_append_absent, PyVal.isNone]

theorem registerChannelGo_fresh_plain_disconnected
    (c : SpecConnection) (n : String) (slot : Slot) (mode : Nat)
    (h1 : isSpecConnected c = false)
    (h2 : List.lookup n c.registeredChannels = Option.none)
    (h3 : parseChanName n = (n, Option.none, Option.none)) :
    registerChannelGo 2 c n slot DOREG mode =
      ({ c with
          dispatcher := dispConnect (dispConnect (dispConnect c.dispatcher Sender.conn
            "connected" (Slot.chanConnected n) UPDATEVALUE) Sender.conn "disconnected"
            (Slot.chanDisconnected n) UPDATEVALUE) (Sender.chan n) "valueChanged" slot mode,
          registeredChannels := c.registeredChannels ++
            [(n, SpecChannel.mk n n Option.none Option.none DOREG true true PyVal.none)] },
       Option.none) := by
  have h1s : (c.state == CONNECTED) = false := h1
  simp only [registerChannelGo, h2, Option.isSome_none, Bool.false_eq_true, if_false,
    SpecChannel.initChan, h3, isSpecConnected, h1s]
  simp only [DOREG, WAITREG, DONTREG, UPDATEVALUE]
  simp [h2, setRegisteredTrue_append, lookup_append_absent, PyVal.isNone]

theorem registerChannel_fresh_plain_connected
    (c : SpecConnection) (n : String) (slot : Slot) (mode : Nat)
    (h1 : isSpecConnected c = true)
    (h2 : List.lookup n c.registeredChannels = Option.none)
    (h3 : parseChanName n = (n, Option.none, Option.none)) :
    registerChannel c n slot DOREG mode =
      { c with
          dispatcher := dispConnect (dispConnect (dispConnect c.dispatcher Sender.conn
            "connected" (Slot.chanConnected n) UPDATEVALUE) Sender.conn "disconnected"
            (Slot.chanDisconnected n) UPDATEVALUE) (Sender.chan n) "valueChanged" slot mode,
          registeredChannels := c.registeredChannels ++
            [(n, SpecChannel.mk n n Option.none Option.none DOREG false true PyVal.none)],
          outgoing_queue := c.outgoing_queue ++ [(Msg.register n).sendingString],
          sent_history := c.sent_history ++ [Msg.register n],
          socket_write_event := true } := by
  unfold registerChannel
  rw [registerChannelGo_fresh_plain_connected c n slot mode h1 h2 h3]

theorem registerChannel_fresh_plain_disconnected
    (c : SpecConnection) (n : String) (slot : Slot) (mode : Nat)
    (h1 : isSpecConnected c = false)
    (h2 : List.lookup n c.registeredChannels = Option.none)
    (h3 : parseChanName n = (n, Option.none, Option.none)) :
    registerChannel c n slot DOREG mode =
      { c with
          dispatcher := dispConnect (dispConnect (dispConnect c.dispatcher Sender.conn
            "connected" (Slot.chanConnected n) UPDATEVALUE) Sender.conn "disconnected"
            (Slot.chanDisconnected n) UPDATEVALUE) (Sender.chan n) "valueChanged" slot mode,
          registeredChannels := c.registeredChannels ++
            [(n, SpecChannel.mk n n Option.none Option.none DOREG true true PyVal.none)] } := by
  unfold registerChannel
  rw [registerChannelGo_fresh_plain_disconnected c n slot mode h1 h2 h3]

theorem unregister_after_register_restores
    (c : SpecConnection) (n : String) (slot : Slot) (mode : Nat)
    (h1 : isSpecConnected c = true)
    (h2 : List.lookup n c.registeredChannels = Option.none)
    (h3 : parseChanName n = (n, Option.none, Option.none)) :
    (unregisterChannel (registerChannel c n slot DOREG mode) n).fst.registeredChannels =
        c.registeredChannels ∧
    (unregisterChannel (registerChannel c n slot DOREG mode) n).snd = Option.none ∧
    (unregisterChannel (registerChannel c n slot DOREG mode) n).fst.sent_history =
        c.sent_history ++ [Msg.register n, Msg.unregister n] := by
  have h1s : (c.state == CONNECTED) = true := h1
  rw [registerChannel_fresh_plain_connected c n slot mode h1 h2 h3]
  simp only [unregisterChannel, lookup_append_absent, h2, SpecChannel.unregisterOp,
    send_msg_unregister, send_msg_no_reply, isSpecConnected, h1s]
  simp [filter_append_absent, h2]
  exact fun a b hmem => lookup_none_key_ne h2 (a, b) hmem

theorem getChannel_fresh_plain_connected
    (c : SpecConnection) (n : String)
    (h1 : isSpecConnected c = true)
    (h2 : List.lookup n c.registeredChannels = Option.none)
    (h3 : parseChanName n = (n, Option.none, Option.none)) :
    getChannel c n =
      ChanStep.mk (SpecChannel.mk n n Option.none Option.none DONTREG false false PyVal.none)
        { c with
            dispatcher := dispConnect (dispConnect c.dispatcher Sender.conn
              "connected" (Slot.chanConnected n) UPDATEVALUE) Sender.conn "disconnected"
              (Slot.chanDisconnected n) UPDATEVALUE }
        Option.none := by
  have h1s : (c.state == CONNECTED) = true := h1
  simp only [getChannel, h2, SpecChannel.initChan, h3, isSpecConnected,
    SpecChannel.connectedSlot, h1s]
  simp [DOREG, WAITREG, DONTREG, UPDATEVALUE]

/-! Drain lemmas for the send path. -/

theorem do_send_data_preserves (c : SpecConnection) (b : Nat)
    (h : c.completed_writing_event = true → joinStrings c.outgoing_queue = "") :
    (do_send_data c b).completed_writing_event = true →
      joinStrings (do_send_data c b).outgoing_queue = "" := by
  unfold do_send_data
  dsimp only
  split
  · intro _; assumption
  · intro hcomp
    exact absurd (h hcomp) (by assumption)

theorem drainRun_invariant (bs : List Nat) (c : SpecConnection)
    (h : c.completed_writing_event = true → joinStrings c.outgoing_queue = "") :
    (drainRun c bs).completed_writing_event = true →
      joinStrings (drainRun c bs).outgoing_queue = "" := by
  induction bs generalizing c with
  | nil => exact h
  | cons b bs ih =>
      show (drainRun (do_send_data c b) bs).completed_writing_event = true → _
      exact ih (do_send_data c b) (do_send_data_preserves c b h)

theorem send_chan_send_eval (c : SpecConnection) (n : String) (v : PyVal)
    (h1 : isSpecConnected c = true) (hw : c.socket_write_event = false) :
    send_msg_chan_send c n v true =
      ChanSendResult.mk
        { c with outgoing_queue := c.outgoing_queue ++ [(Msg.chan_send n v).sendingString],
                 sent_history := c.sent_history ++ [Msg.chan_send n v],
                 completed_writing_event := false,
                 socket_write_event := true }
        true Option.none := by
  have h1s : (c.state == CONNECTED) = true := h1
  simp only [send_msg_chan_send, send_msg_no_reply, isSpecConnected, h1s]
  simp [hw]

/-! Claim theorems. -/

/-- Claim C1, counterexample: a connected state with one pending uncompleted
reply future. After handle_close the channel map is empty, but the pending
reply future has not been completed at all, let alone exactly once with a
Disconnected error: the future is still in the table with zero completion
events, refuting the claim at this input. -/
theorem claim_C1_counterexample :
    (handle_close connPending).registeredChannels = [] ∧
    ¬ (∀ p ∈ connPending.registeredReplies,
        ∃ q, List.lookup p.fst (handle_close connPending).registeredReplies = some q ∧
          q.completions = 1) := by
  constructor
  · rfl
  · intro h
    obtain ⟨q, hq, hcomp⟩ := h (5, SpecReply.mk 5 0)
      (show (5, SpecReply.mk 5 0) ∈ [(5, SpecReply.mk 5 0)] from List.mem_singleton.mpr rfl)
    have hlk : List.lookup (5 : Nat) (handle_close connPending).registeredReplies =
        some (SpecReply.mk 5 0) := by rfl
    rw [hlk] at hq
    cases hq
    simp at hcomp

/-- Claim C1, amended: after a disconnect the channel map is empty and the
state is DISCONNECTED, but the pendingReplies table is left untouched and no
reply future is completed; the disconnected signal fires and the connected
latch clears only when the state was CONNECTED. -/
theorem claim_C1_amended : ∀ c : SpecConnection,
    (handle_close c).registeredChannels = [] ∧
    (handle_close c).registeredReplies = c.registeredReplies ∧
    (handle_close c).state = DISCONNECTED ∧
    (handle_close c).connected = false ∧
    (handle_close c).serverVersion = Option.none ∧
    (c.state = CONNECTED →
      (handle_close c).emitted = c.emitted ++ [Emission.mk Sender.conn "disconnected" []] ∧
      (handle_close c).connected_event = false) := by
  intro c
  unfold handle_close specDisconnected
  by_cases hs : c.socket_open <;> by_cases hc : (c.state == CONNECTED) = true <;>
    simp [hs, hc] <;>
    · intro hC
      rw [hC] at hc
      simp at hc

/-- Claim C1, witness: the amended theorem at the concrete connected state
with one pending reply, discharging the CONNECTED hypothesis of its last
conjunct. -/
theorem claim_C1_witness :
    (handle_close connPending).registeredChannels = [] ∧
    (handle_close connPending).registeredReplies = connPending.registeredReplies ∧
    (handle_close connPending).emitted =
      connPending.emitted ++ [Emission.mk Sender.conn "disconnected" []] ∧
    (handle_close connPending).connected_event = false := by
  have h := claim_C1_amended connPending
  have h2 := h.2.2.2.2.2 rfl
  exact ⟨h.1, h.2.1, h2.1, h2.2⟩

/-- Claim C5, counterexample: a connected peer whose learned serverVersion
is 2. Both version gated operations return unchanged state and no error at
all, instead of raising a ProtocolError: nothing is sent, no reply future
is registered and no exception reaches the caller. -/
theorem claim_C5_counterexample :
    connV2.serverVersion = some 2 ∧
    isSpecConnected connV2 = true ∧
    send_msg_func connV2 "sleep(1)" = (connV2, Option.none) ∧
    send_msg_func_with_return connV2 "sleep(1)" = (connV2, Option.none, Option.none) := by
  exact ⟨rfl, rfl, rfl, rfl⟩

/-- Claim C5, amended: on a connection whose learned serverVersion is below
3, send_msg_func and send_msg_func_with_return log the unsupported feature
and return without sending anything and without raising any error; the
connection state is unchanged. -/
theorem claim_C5_amended : ∀ (c : SpecConnection) (cmd : String) (v : Int),
    c.serverVersion = some v → v < 3 →
    send_msg_func c cmd = (c, Option.none) ∧
    send_msg_func_with_return c cmd = (c, Option.none, Option.none) := by
  intro c cmd v hv hlt
  have h : py2VersionLt3 c.serverVersion = true := by
    rw [hv]
    simpa [py2VersionLt3] using hlt
  constructor
  · unfold send_msg_func
    rw [h]
    simp
  · unfold send_msg_func_with_return
    rw [h]
    simp

/-- Claim C5, witness: the amended theorem applied to the concrete version
2 connection. -/
theorem claim_C5_witness :
    send_msg_func connV2 "sleep(1)" = (connV2, Option.none) ∧
    send_msg_func_with_return connV2 "sleep(1)" = (connV2, Option.none, Option.none) :=
  claim_C5_amended connV2 "sleep(1)" 2 rfl (by decide)

/-- Claim C3, counterexample: a connected state whose writer is already
armed over an undrained buffer. A channel write with wait set to true
returns immediately, without blocking, while the outgoing buffer is not
drained, refuting the claim that the call returns only after the buffer has
been fully drained. -/
theorem claim_C3_counterexample :
    isSpecConnected connArmed = true ∧
    (send_msg_chan_send connArmed "var/toto" (PyVal.int 1) true).blocked = false ∧
    joinStrings (send_msg_chan_send connArmed "var/toto" (PyVal.int 1) true).conn.outgoing_queue
      ≠ "" := by
  refine ⟨rfl, rfl, ?_⟩
  decide

/-- Claim C3, amended: when no write event is armed at call time, a channel
write with wait set to true blocks, and the blocked caller wakes only in a
state whose outgoing buffer has fully drained: along every run of writer
callbacks, whenever the completed writing event is set the buffer is empty.
When a writer is already armed the call returns at once (see the
counterexample). -/
theorem claim_C3_amended : ∀ (c : SpecConnection) (n : String) (v : PyVal),
    isSpecConnected c = true → c.socket_write_event = false →
    (send_msg_chan_send c n v true).blocked = true ∧
    (send_msg_chan_send c n v true).err = Option.none ∧
    (send_msg_chan_send c n v true).conn.completed_writing_event = false ∧
    ∀ bs : List Nat,
      (drainRun (send_msg_chan_send c n v true).conn bs).completed_writing_event = true →
      joinStrings (drainRun (send_msg_chan_send c n v true).conn bs).outgoing_queue = "" := by
  intro c n v h1 hw
  rw [send_chan_send_eval c n v h1 hw]
  refine ⟨rfl, rfl, rfl, ?_⟩
  intro bs
  exact drainRun_invariant bs _ (by intro hx; simp at hx)

/-- Claim C3, witness: the amended theorem at the concrete connected state
with an unarmed writer, together with a concrete drain run of the resulting
state that sets the completed writing event on an emptied buffer. -/
theorem claim_C3_witness :
    (send_msg_chan_send connC "var/toto" (PyVal.int 1) true).blocked = true ∧
    (∀ bs : List Nat,
      (drainRun (send_msg_chan_send connC "var/toto" (PyVal.int 1) true).conn bs).completed_writing_event = true →
      joinStrings (drainRun (send_msg_chan_send connC "var/toto" (PyVal.int 1) true).conn bs).outgoing_queue = "") := by
  have h := claim_C3_amended connC "var/toto" (PyVal.int 1) rfl rfl
  exact ⟨h.1, h.2.2.2⟩

/-- Claim C2, counterexample: registering a fresh channel on a disconnected
connection sets the registered flag to true although no REGISTER message
was ever sent, refuting the stated equivalence between the flag and the
wire history. -/
theorem claim_C2_counterexample :
    isSpecConnected conn0 = false ∧
    (List.lookup "toto"
      (registerChannel conn0 "toto" (Slot.external 0) DOREG UPDATEVALUE).registeredChannels).map
        SpecChannel.registered = some true ∧
    (registerChannel conn0 "toto" (Slot.external 0) DOREG UPDATEVALUE).sent_history = [] := by
  exact ⟨rfl, rfl, rfl⟩

/-- Claim C2, amended: the registered flag is set by registerChannel when
the channel enters the registry, whether or not a REGISTER frame went out:
on a disconnected connection the flag becomes true and the wire history is
unchanged; on a connected connection a fresh plain name gets its REGISTER
frame sent; and on disconnect the channel handler resets the flag to false
and the cached value to absent. -/
theorem claim_C2_amended :
    (∀ ch : SpecChannel,
      (SpecChannel.disconnectedSlot ch).registered = false ∧
      (SpecChannel.disconnectedSlot ch).value = PyVal.none) ∧
    (∀ (c : SpecConnection) (n : String) (slot : Slot) (mode : Nat),
      isSpecConnected c = false →
      List.lookup n c.registeredChannels = Option.none →
      parseChanName n = (n, Option.none, Option.none) →
      (List.lookup n (registerChannel c n slot DOREG mode).registeredChannels).map
        SpecChannel.registered = some true ∧
      (registerChannel c n slot DOREG mode).sent_history = c.sent_history) ∧
    (∀ (c : SpecConnection) (n : String) (slot : Slot) (mode : Nat),
      isSpecConnected c = true →
      List.lookup n c.registeredChannels = Option.none →
      parseChanName n = (n, Option.none, Option.none) →
      (List.lookup n (registerChannel c n slot DOREG mode).registeredChannels).map
        SpecChannel.registered = some true ∧
      (registerChannel c n slot DOREG mode).sent_history = c.sent_history ++ [Msg.register n]) := by
  refine ⟨fun ch => ⟨rfl, rfl⟩, ?_, ?_⟩
  · intro c n slot mode h1 h2 h3
    rw [registerChannel_fresh_plain_disconnected c n slot mode h1 h2 h3]
    dsimp only
    rw [lookup_append_absent _ h2]
    exact ⟨rfl, rfl⟩
  · intro c n slot mode h1 h2 h3
    rw [registerChannel_fresh_plain_connected c n slot mode h1 h2 h3]
    dsimp only
    rw [lookup_append_absent _ h2]
    exact ⟨rfl, rfl⟩

/-- Claim C2, witness: the amended theorem at the concrete disconnected and
connected connections and the fresh channel name toto. -/
theorem claim_C2_witness :
    ((List.lookup "toto"
      (registerChannel conn0 "toto" (Slot.external 0) DOREG UPDATEVALUE).registeredChannels).map
        SpecChannel.registered = some true ∧
     (registerChannel conn0 "toto" (Slot.external 0) DOREG UPDATEVALUE).sent_history =
       conn0.sent_history) ∧
    ((List.lookup "toto"
      (registerChannel connC "toto" (Slot.external 0) DOREG UPDATEVALUE).registeredChannels).map
        SpecChannel.registered = some true ∧
     (registerChannel connC "toto" (Slot.external 0) DOREG UPDATEVALUE).sent_history =
       connC.sent_history ++ [Msg.register "toto"]) := by
  have h := claim_C2_amended
  exact ⟨h.2.1 conn0 "toto" (Slot.external 0) UPDATEVALUE rfl rfl rfl,
         h.2.2 connC "toto" (Slot.external 0) UPDATEVALUE rfl rfl rfl⟩

/-- Claim C8, counterexample: on a connected connection, registering the
access path name var/toto/x also creates the parent channel var/toto; the
following unregister removes only var/toto/x, leaving the parent behind, so
the registry differs from its state before the pair of calls. -/
theorem claim_C8_counterexample :
    isSpecConnected connC = true ∧
    connC.registeredChannels.map Prod.fst = ["error", "status/simulate"] ∧
    (unregisterChannel
      (registerChannel connC "var/toto/x" (Slot.external 0) DOREG UPDATEVALUE)
      "var/toto/x").fst.registeredChannels.map Prod.fst =
      ["error", "status/simulate", "var/toto"] := by
  exact ⟨rfl, rfl, rfl⟩

/-- Claim C8, amended: for a channel name without an access path that is
not yet registered, registerChannel followed by unregisterChannel on a
connected connection restores the channel registry exactly and raises
nothing; names with an access path leave the transparently created parent
channel in the registry (see the counterexample). -/
theorem claim_C8_amended : ∀ (c : SpecConnection) (n : String) (slot : Slot) (mode : Nat),
    isSpecConnected c = true →
    List.lookup n c.registeredChannels = Option.none →
    parseChanName n = (n, Option.none, Option.none) →
    (unregisterChannel (registerChannel c n slot DOREG mode) n).fst.registeredChannels =
      c.registeredChannels ∧
    (unregisterChannel (registerChannel c n slot DOREG mode) n).snd = Option.none := by
  intro c n slot mode h1 h2 h3
  have h := unregister_after_register_restores c n slot mode h1 h2 h3
  exact ⟨h.1, h.2.1⟩

/-- Claim C8, witness: the amended theorem at the concrete connected
connection and the plain name toto. -/
theorem claim_C8_witness :
    (unregisterChannel (registerChannel connC "toto" (Slot.external 1) DOREG UPDATEVALUE)
      "toto").fst.registeredChannels = connC.registeredChannels ∧
    (unregisterChannel (registerChannel connC "toto" (Slot.external 1) DOREG UPDATEVALUE)
      "toto").snd = Option.none :=
  claim_C8_amended connC "toto" (Slot.external 1) UPDATEVALUE rfl rfl rfl

/-- Claim C4, counterexample: a waitChannelUpdate that registered the fresh
channel toto itself and then times out raises the timeout error while the
channel is still in the registry with the registered flag true: the
trailing unregister of the source is skipped because the timeout exception
propagates from the wait statement and there is no finally clause. -/
theorem claim_C4_counterexample :
    List.lookup "toto" connC.registeredChannels = Option.none ∧
    (waitChannelUpdate connC "toto" WaitOutcome.timedOut).snd = some SpecErr.timeout ∧
    (List.lookup "toto"
      (waitChannelUpdate connC "toto" WaitOutcome.timedOut).fst.registeredChannels).map
        SpecChannel.registered = some true := by
  exact ⟨rfl, rfl, rfl⟩

/-- Claim C4, amended: a waitChannelUpdate that transparently registered a
fresh plain named channel unregisters it again when it returns normally
after an update, restoring the registry; but when it fails with the timeout
error the channel remains registered, because the exception skips the
trailing unregister. -/
theorem claim_C4_amended : ∀ (c : SpecConnection) (n : String),
    c.connected_event = true →
    isSpecConnected c = true →
    List.lookup n c.registeredChannels = Option.none →
    parseChanName n = (n, Option.none, Option.none) →
    ((waitChannelUpdate c n WaitOutcome.updated).snd = Option.none ∧
     (waitChannelUpdate c n WaitOutcome.updated).fst.registeredChannels =
       c.registeredChannels) ∧
    ((waitChannelUpdate c n WaitOutcome.timedOut).snd = some SpecErr.timeout ∧
     (List.lookup n
       (waitChannelUpdate c n WaitOutcome.timedOut).fst.registeredChannels).map
         SpecChannel.registered = some true) := by
  intro c n h0 h1 h2 h3
  have hg := getChannel_fresh_plain_connected c n h1 h2 h3
  have h1g : isSpecConnected
      { c with
          dispatcher := dispConnect (dispConnect c.dispatcher Sender.conn
            "connected" (Slot.chanConnected n) UPDATEVALUE) Sender.conn "disconnected"
            (Slot.chanDisconnected n) UPDATEVALUE } = true := by
    simpa [isSpecConnected] using h1
  have h2g : List.lookup n
      ({ c with
          dispatcher := dispConnect (dispConnect c.dispatcher Sender.conn
            "connected" (Slot.chanConnected n) UPDATEVALUE) Sender.conn "disconnected"
            (Slot.chanDisconnected n) UPDATEVALUE } : SpecConnection).registeredChannels =
      Option.none := h2
  constructor
  · have hrest := unregister_after_register_restores _ n Slot.waiterChannelUpdated
      UPDATEVALUE h1g h2g h3
    simp only [h0] at hrest
    unfold waitChannelUpdate
    rw [hg]
    simp only [h0]
    simp only [Bool.not_true, Bool.false_eq_true, if_false]
    exact ⟨(by simpa using hrest.2.1), (by simpa using hrest.1)⟩
  · have hreg := registerChannel_fresh_plain_connected _ n Slot.waiterChannelUpdated
      UPDATEVALUE h1g h2g h3
    simp only [h0] at hreg
    unfold waitChannelUpdate
    rw [hg]
    simp only [h0, Bool.not_true, Bool.false_eq_true, if_false, Bool.not_false, if_true]
    rw [hreg]
    constructor
    · trivial
    · dsimp only
      rw [lookup_append_absent _ h2]
      rfl

/-- Claim C4, witness: the amended theorem at the concrete connected
connection and the fresh channel name toto. -/
theorem claim_C4_witness :
    ((waitChannelUpdate connC "toto" WaitOutcome.updated).snd = Option.none ∧
     (waitChannelUpdate connC "toto" WaitOutcome.updated).fst.registeredChannels =
       connC.registeredChannels) ∧
    ((waitChannelUpdate connC "toto" WaitOutcome.timedOut).snd = some SpecErr.timeout ∧
     (List.lookup "toto"
       (waitChannelUpdate connC "toto" WaitOutcome.timedOut).fst.registeredChannels).map
         SpecChannel.registered = some true) :=
  claim_C4_amended connC "toto" rfl rfl rfl rfl

set_option maxHeartbeats 2000000 in
/-- Claim C10: for every address string, the freshly constructed connection
holds exactly the two service channels error and status/simulate in its
registry, both flagged registered with no cached value; the dispatcher
carries the error channel subscription of the connection error handler in
fire every mode and the status/simulate subscription of the simulation
status handler, which stores the delivered value in the simulationMode
field; nothing was sent and no exception was raised or even swallowed
during this registration although the state is DISCONNECTED. -/
theorem claim_C10 : ∀ s : String,
    (newSpecConnection s).registeredChannels =
      [("error", SpecChannel.mk "error" "error" Option.none Option.none DOREG true true
          PyVal.none),
       ("status/simulate", SpecChannel.mk "status/simulate" "status/simulate" Option.none
          Option.none DOREG true true PyVal.none)] ∧
    (newSpecConnection s).dispatcher =
      [DispEntry.mk Sender.conn "connected" (Slot.chanConnected "error") UPDATEVALUE,
       DispEntry.mk Sender.conn "disconnected" (Slot.chanDisconnected "error") UPDATEVALUE,
       DispEntry.mk (Sender.chan "error") "valueChanged" Slot.connError FIREEVENT,
       DispEntry.mk Sender.conn "connected" (Slot.chanConnected "status/simulate") UPDATEVALUE,
       DispEntry.mk Sender.conn "disconnected" (Slot.chanDisconnected "status/simulate")
         UPDATEVALUE,
       DispEntry.mk (Sender.chan "status/simulate") "valueChanged"
         Slot.connSimulationStatusChanged UPDATEVALUE] ∧
    (newSpecConnection s).sent_history = [] ∧
    (newSpecConnection s).outgoing_queue = [] ∧
    (newSpecConnection s).caught = [] ∧
    (newSpecConnection s).emitted = [] ∧
    (newSpecConnection s).state = DISCONNECTED ∧
    (∀ (c : SpecConnection) (v : PyVal),
      simulationStatusChanged c v = { c with simulationMode := v }) := by
  intro s
  exact ⟨rfl, rfl, rfl, rfl, rfl, rfl, rfl, fun c v => rfl⟩

/-! The deleted merge refinement. -/

theorem pres_transfer (k : PyKey) (cv cvNew : PyDict) (rest : List (PyKey × PyVal))
    (hkeep : ∀ k2, k2 ≠ k → dlookup k2 cvNew = dlookup k2 cv)
    (hnotin : ¬ k ∈ rest.map Prod.fst)
    (hpres : ∀ kv ∈ rest, ∀ d, kv.snd = PyVal.dict d →
      ∃ inner, dlookup kv.fst cv = some (PyVal.dict inner)) :
    ∀ kv ∈ rest, ∀ d, kv.snd = PyVal.dict d →
      ∃ inner, dlookup kv.fst cvNew = some (PyVal.dict inner) := by
  intro kv hm d hd
  obtain ⟨inner, hi⟩ := hpres kv hm d hd
  have hne : kv.fst ≠ k := fun he => hnotin (he ▸ List.mem_map_of_mem Prod.fst hm)
  exact ⟨inner, by rw [hkeep kv.fst hne]; exact hi⟩

theorem updateDictDeleted_eq_spec : ∀ (pv : List (PyKey × PyVal)) (cv : PyDict),
    (pv.map Prod.fst).Nodup →
    (∀ kv ∈ pv, ∀ d, kv.snd = PyVal.dict d →
      ∃ inner, dlookup kv.fst cv = some (PyVal.dict inner)) →
    updateDictDeleted cv pv = (deletedMergeSpec cv pv, Option.none) := by
  intro pv
  induction pv with
  | nil => intro cv _ _; rfl
  | cons kv rest ih =>
      intro cv hnd hpres
      obtain ⟨k, v⟩ := kv
      rw [List.map_cons, List.nodup_cons] at hnd
      obtain ⟨hk, hnd⟩ := hnd
      cases v with
      | dict d =>
          obtain ⟨inner, hlk⟩ := hpres (k, PyVal.dict d) (List.mem_cons_self _ _) d rfl
          dsimp only at hlk hk
          have hstep : updDelEntry cv k (PyVal.dict d) =
              (dset k (specDeleteInner inner d) cv, Option.none) := by
            unfold updDelEntry specDeleteInner
            rw [hlk]
            dsimp only
            split
            · rw [dset_dset_same]
            · rfl
          show updateDictDeleted cv ((k, PyVal.dict d) :: rest) = _
          unfold updateDictDeleted
          rw [hstep]
          have hspec : deletedMergeSpec cv ((k, PyVal.dict d) :: rest) =
              deletedMergeSpec (dset k (specDeleteInner inner d) cv) rest := by
            conv_lhs => rw [deletedMergeSpec]
            rw [hlk]
          rw [hspec]
          exact ih _ hnd (pres_transfer k cv _ rest
            (fun k2 h2 => dlookup_dset_ne h2 _ cv) hk
            (fun kv2 hm d2 hd2 => hpres kv2 (List.mem_cons_of_mem _ hm) d2 hd2))
      | none =>
          show updateDictDeleted cv ((k, PyVal.none) :: rest) = _
          unfold updateDictDeleted
          show updateDictDeleted (ddel k cv) rest = _
          rw [show deletedMergeSpec cv ((k, PyVal.none) :: rest) =
            deletedMergeSpec (ddel k cv) rest from rfl]
          exact ih _ hnd (pres_transfer k cv _ rest
            (fun k2 h2 => dlookup_ddel_ne h2 cv) hk
            (fun kv2 hm d2 hd2 => hpres kv2 (List.mem_cons_of_mem _ hm) d2 hd2))
      | int n =>
          show updateDictDeleted cv ((k, PyVal.int n) :: rest) = _
          unfold updateDictDeleted
          show updateDictDeleted (ddel k cv) rest = _
          rw [show deletedMergeSpec cv ((k, PyVal.int n) :: rest) =
            deletedMergeSpec (ddel k cv) rest from rfl]
          exact ih _ hnd (pres_transfer k cv _ rest
            (fun k2 h2 => dlookup_ddel_ne h2 cv) hk
            (fun kv2 hm d2 hd2 => hpres kv2 (List.mem_cons_of_mem _ hm) d2 hd2))
      | float f =>
          show updateDictDeleted cv ((k, PyVal.float f) :: rest) = _
          unfold updateDictDeleted
          show updateDictDeleted (ddel k cv) rest = _
          rw [show deletedMergeSpec cv ((k, PyVal.float f) :: rest) =
            deletedMergeSpec (ddel k cv) rest from rfl]
          exact ih _ hnd (pres_transfer k cv _ rest
            (fun k2 h2 => dlookup_ddel_ne h2 cv) hk
            (fun kv2 hm d2 hd2 => hpres kv2 (List.mem_cons_of_mem _ hm) d2 hd2))
      | str s =>
          show updateDictDeleted cv ((k, PyVal.str s) :: rest) = _
          unfold updateDictDeleted
          show updateDictDeleted (ddel k cv) rest = _
          rw [show deletedMergeSpec cv ((k, PyVal.str s) :: rest) =
            deletedMergeSpec (ddel k cv) rest from rfl]
          exact ih _ hnd (pres_transfer k cv _ rest
            (fun k2 h2 => dlookup_ddel_ne h2 cv) hk
            (fun kv2 hm d2 hd2 => hpres kv2 (List.mem_cons_of_mem _ hm) d2 hd2))
      | bool b =>
          show updateDictDeleted cv ((k, PyVal.bool b) :: rest) = _
          unfold updateDictDeleted
          show updateDictDeleted (ddel k cv) rest = _
          rw [show deletedMergeSpec cv ((k, PyVal.bool b) :: rest) =
            deletedMergeSpec (ddel k cv) rest from rfl]
          exact ih _ hnd (pres_transfer k cv _ rest
            (fun k2 h2 => dlookup_ddel_ne h2 cv) hk
            (fun kv2 hm d2 hd2 => hpres kv2 (List.mem_cons_of_mem _ hm) d2 hd2))

/-- Claim C6: for a channel without an access path whose cached value is a
mapping, an update with an incoming mapping under the DELETED flag removes,
for each incoming key carrying a mapping, the matching inner keys of the
cached entry, collapsing an inner mapping left with only the synthetic None
key to that leaf value, and removes each incoming scalar valued key; the
result is cached and emitted as valueChanged. The statement equates the
code with the delete merge worded by the specification, for incoming keys
whose mapping values address mapping entries present in the cache and with
the keys of a genuine dict, that is, without duplicates; the concrete
example of the claim is the witness. -/
theorem claim_C6 : ∀ (ch : SpecChannel) (cv : PyDict) (pv : List (PyKey × PyVal)),
    ch.access1 = Option.none → ch.value = PyVal.dict cv →
    (pv.map Prod.fst).Nodup →
    (∀ kv ∈ pv, ∀ d, kv.snd = PyVal.dict d →
      ∃ inner, dlookup kv.fst cv = some (PyVal.dict inner)) →
    SpecChannel.update ch (PyVal.dict pv) true false =
      UpdResult.mk { ch with value := PyVal.dict (deletedMergeSpec cv pv) }
        [valueChangedEmission ch.name (PyVal.dict (deletedMergeSpec cv pv))] Option.none := by
  intro ch cv pv h1 h2 hnd hpres
  obtain ⟨nm, scn, a1, a2, flag, isd, reg, val⟩ := ch
  dsimp only at h1 h2
  subst h1
  subst h2
  show SpecChannel.update
    (SpecChannel.mk nm scn Option.none a2 flag isd reg (PyVal.dict cv)) (PyVal.dict pv)
    true false = _
  unfold SpecChannel.update
  dsimp only
  rw [updateDictDeleted_eq_spec pv cv hnd hpres]
  rfl

/-- Claim C6, witness: the flagship example of the claim. The cached value
is a two key mapping, the DELETED payload removes the inner key k1 of a and
the scalar key b, the cached value becomes the mapping a maps to k2 maps to
2, and a valueChanged emission carries that mapping. -/
theorem claim_C6_witness :
    SpecChannel.update exampleChanM (PyVal.dict examplePayloadM) true false =
      UpdResult.mk
        { exampleChanM with
            value := PyVal.dict [(some "a", PyVal.dict [(some "k2", PyVal.int 2)])] }
        [valueChangedEmission "var/M" (PyVal.dict [(some "a", PyVal.dict [(some "k2", PyVal.int 2)])])]
        Option.none ∧
    deletedMergeSpec exampleCacheM examplePayloadM =
      [(some "a", PyVal.dict [(some "k2", PyVal.int 2)])] := by
  have h := claim_C6 exampleChanM exampleCacheM examplePayloadM rfl rfl (by decide) ?_
  · constructor
    · rw [h]
      rfl
    · rfl
  · intro kv hm d hd
    have hm2 : kv = (some "a", PyVal.dict [(some "k1", PyVal.none)]) ∨
        kv = (some "b", PyVal.none) := by
      simpa [examplePayloadM] using hm
    rcases hm2 with rfl | rfl
    · exact ⟨[(some "k1", PyVal.int 1), (some "k2", PyVal.int 2)], rfl⟩
    · exact absurd hd (by intro hx; cases hx)

/-- Claim C7: the leaf coercion first attempts an integer parse, then a
floating point parse, and otherwise returns the value unchanged; the string
42 coerces to the integer 42, 3.14 to the float of value 157 over 50, abc
and the empty string stay unchanged; and a mapping value taken for a single
component access path is stored by update as the mapping itself, a shallow
copy in the source, without coercion, while a scalar at the same position
is stored coerced. -/
theorem claim_C7 :
    (∀ (s : String) (n : Int), pyIntOfString s = some n →
      coerce (PyVal.str s) = PyVal.int n) ∧
    (∀ (s : String) (f : PyFloat), pyIntOfString s = Option.none →
      pyFloatOfString s = some f → coerce (PyVal.str s) = PyVal.float f) ∧
    (∀ s : String, pyIntOfString s = Option.none → pyFloatOfString s = Option.none →
      coerce (PyVal.str s) = PyVal.str s) ∧
    coerce (PyVal.str "42") = PyVal.int 42 ∧
    (∃ f, coerce (PyVal.str "3.14") = PyVal.float f ∧ f.toRat = 157 / 50) ∧
    coerce (PyVal.str "abc") = PyVal.str "abc" ∧
    coerce (PyVal.str "") = PyVal.str "" ∧
    (∀ (ch : SpecChannel) (a1 : String) (pv : PyDict) (d : PyDict),
      ch.access1 = some a1 → ch.access2 = Option.none → ch.value = PyVal.none →
      dlookup (some a1) pv = some (PyVal.dict d) →
      SpecChannel.update ch (PyVal.dict pv) false false =
        UpdResult.mk { ch with value := PyVal.dict d }
          [valueChangedEmission ch.name (PyVal.dict d)] Option.none) ∧
    (∀ (ch : SpecChannel) (a1 : String) (pv : PyDict) (s : String),
      ch.access1 = some a1 → ch.access2 = Option.none → ch.value = PyVal.none →
      dlookup (some a1) pv = some (PyVal.str s) →
      SpecChannel.update ch (PyVal.dict pv) false false =
        UpdResult.mk { ch with value := coerce (PyVal.str s) }
          [valueChangedEmission ch.name (coerce (PyVal.str s))] Option.none) := by
  refine ⟨?_, ?_, ?_, rfl, ⟨PyFloat.mk 314 100, rfl, by norm_num [PyFloat.toRat]⟩, rfl, rfl,
    ?_, ?_⟩
  · intro s n h
    simp [coerce, pyIntOf, h]
  · intro s f h1 h2
    simp [coerce, pyIntOf, pyFloatOf, h1, h2]
  · intro s h1 h2
    simp [coerce, pyIntOf, pyFloatOf, h1, h2]
  · intro ch a1 pv d h1 h2 h3 h4
    obtain ⟨nm, scn, af1, af2, flag, isd, reg, val⟩ := ch
    dsimp only at h1 h2 h3
    subst h1
    subst h2
    subst h3
    unfold SpecChannel.update
    simp [dmem, dget, h4, PyVal.isNone]
  · intro ch a1 pv s h1 h2 h3 h4
    obtain ⟨nm, scn, af1, af2, flag, isd, reg, val⟩ := ch
    dsimp only at h1 h2 h3
    subst h1
    subst h2
    subst h3
    unfold SpecChannel.update
    simp [dmem, dget, h4, PyVal.isNone]

/-- Claim C7, witness: the theorem instantiated at the concrete strings of
the claim and at a concrete channel with the access path var/T/x whose
payload carries a mapping under x, stored uncoerced, and at a payload
carrying the string literal 2.5 under x, stored coerced. -/
theorem claim_C7_witness :
    coerce (PyVal.str "42") = PyVal.int 42 ∧
    coerce (PyVal.str "17") = PyVal.int 17 ∧
    SpecChannel.update exampleChanT
        (PyVal.dict [(some "x", PyVal.dict [(some "k", PyVal.str "v")])]) false false =
      UpdResult.mk { exampleChanT with value := PyVal.dict [(some "k", PyVal.str "v")] }
        [valueChangedEmission "var/T/x" (PyVal.dict [(some "k", PyVal.str "v")])]
        Option.none ∧
    SpecChannel.update exampleChanT
        (PyVal.dict [(some "x", PyVal.str "2.5")]) false false =
      UpdResult.mk { exampleChanT with value := coerce (PyVal.str "2.5") }
        [valueChangedEmission "var/T/x" (coerce (PyVal.str "2.5"))] Option.none := by
  obtain ⟨h1, h2, h3, h4, h5, h6, h7, h8, h9⟩ := claim_C7
  exact ⟨h1 "42" 42 rfl, h1 "17" 17 rfl,
    h8 exampleChanT "x" [(some "x", PyVal.dict [(some "k", PyVal.str "v")])]
      [(some "k", PyVal.str "v")] rfl rfl rfl rfl,
    h9 exampleChanT "x" [(some "x", PyVal.str "2.5")] "2.5" rfl rfl rfl rfl⟩

/-! The dial loop theorems. -/

theorem scanAttempt_preState : ∀ i : Nat, scanAttempt (preState i) = attemptSeq i := by
  intro i
  cases i with
  | zero => rfl
  | succ k => rfl

theorem attemptSeq_mod : ∀ n : Nat, attemptSeq n = MIN_PORT + ((n % 22 : Nat) : Int) := by
  intro n
  induction n with
  | zero => simp [attemptSeq, scanAttempt, MIN_PORT]
  | succ n ih =>
      show scanAttempt (some (attemptSeq n)) = _
      rw [ih]
      unfold scanAttempt MIN_PORT MAX_PORT
      dsimp only
      have hlt : n % 22 < 22 := Nat.mod_lt _ (by omega)
      by_cases hc : (6510 : Int) + ((n % 22 : Nat) : Int) > 6530
      · rw [if_pos hc]
        have h2 : (n + 1) % 22 = 0 := by omega
        rw [h2]
        simp
      · rw [if_neg hc]
        have h2 : (n + 1) % 22 = n % 22 + 1 := by omega
        rw [h2]
        push_cast
        ring

theorem scanRun_sound (peers : ScanPeers) (nm : String) : ∀ (fuel : Nat) (p : Option Int)
    (a : Int), scanRun peers nm fuel p = some a → peers a = some nm := by
  intro fuel
  induction fuel with
  | zero => intro p a h; cases h
  | succ fuel ih =>
      intro p a h
      rw [scanRun] at h
      cases hp : peers (scanAttempt p) with
      | none => rw [hp] at h; exact ih _ a h
      | some id =>
          rw [hp] at h
          dsimp only at h
          by_cases hid : id = nm
          · rw [if_pos hid] at h
            cases h
            rw [hp, hid]
          · rw [if_neg hid] at h
            exact ih _ a h

theorem scanRun_never_commits (peers : ScanPeers) (nm : String)
    (h : ∀ q : Int, peers q ≠ some nm) :
    ∀ (fuel : Nat) (p : Option Int), scanRun peers nm fuel p = Option.none := by
  intro fuel
  induction fuel with
  | zero => intro p; rfl
  | succ fuel ih =>
      intro p
      rw [scanRun]
      cases hp : peers (scanAttempt p) with
      | none => exact ih _
      | some id =>
          have hid : ¬ id = nm := fun he => h (scanAttempt p) (he ▸ hp)
          dsimp only
          rw [if_neg hid]
          exact ih _

theorem scanRun_commits_first (peers : ScanPeers) (nm : String) :
    ∀ (d i fuel : Nat), d < fuel →
    (∀ j, i ≤ j → j < i + d → peers (attemptSeq j) ≠ some nm) →
    peers (attemptSeq (i + d)) = some nm →
    scanRun peers nm fuel (preState i) = some (attemptSeq (i + d)) := by
  intro d
  induction d with
  | zero =>
      intro i fuel hf hno hm
      cases fuel with
      | zero => omega
      | succ f =>
          rw [scanRun]
          rw [scanAttempt_preState i]
          rw [Nat.add_zero] at hm
          rw [hm]
          dsimp only
          rw [if_pos rfl, Nat.add_zero]
  | succ d ih =>
      intro i fuel hf hno hm
      cases fuel with
      | zero => omega
      | succ f =>
          rw [scanRun]
          rw [scanAttempt_preState i]
          have hshift : i + (d + 1) = (i + 1) + d := by omega
          have hm2 : peers (attemptSeq ((i + 1) + d)) = some nm := by
            rw [← hshift]; exact hm
          have hflt : d < f := by omega
          have hrec : scanRun peers nm f (preState (i + 1)) =
              some (attemptSeq ((i + 1) + d)) := by
            refine ih (i + 1) f hflt ?_ hm2
            intro j h1 h2
            exact hno j (by omega) (by omega)
          have hpre : (some (attemptSeq i) : Option Int) = preState (i + 1) := rfl
          have hni : peers (attemptSeq i) ≠ some nm := hno i le_rfl (by omega)
          cases hp : peers (attemptSeq i) with
          | none =>
              rw [hpre, hrec, ← hshift]
          | some id =>
              have hid : ¬ id = nm := fun he => hni (he ▸ hp)
              dsimp only
              rw [if_neg hid, hpre, hrec, ← hshift]

/-- Claim C9, counterexample: the scan does not sweep the inclusive range
6510 to 6530. The twentysecond attempted port is 6531, one beyond MAX_PORT,
because the wrap test runs before the increment; only after attempting 6531
does the scan wrap to 6510. And with no matching peer anywhere the loop
never fails: after one hundred attempts, several full sweeps past the
claimed single one, the while True loop of the source is still dialing. -/
theorem claim_C9_counterexample :
    attemptSeq 20 = 6530 ∧
    attemptSeq 21 = 6531 ∧
    ¬ (MIN_PORT ≤ attemptSeq 21 ∧ attemptSeq 21 ≤ MAX_PORT) ∧
    attemptSeq 22 = 6510 ∧
    scanRun (fun _ => Option.none) "main" 100 Option.none = Option.none := by
  refine ⟨by decide, by decide, ?_, by decide, by decide⟩
  intro h
  have := h.2
  rw [show attemptSeq 21 = 6531 by decide] at this
  exact absurd this (by decide)

/-- Claim C9, amended: the dial of a scan mode address sweeps the ports
6510 to 6531 cyclically, the port after 6530 being 6531 and only then
wrapping to 6510; it commits exactly to the first attempted port holding a
peer whose hello identity equals the scan name, and commits only to such a
port; when no peer matches, the loop never terminates and keeps sweeping,
there is no failure after one full sweep. -/
theorem claim_C9_amended :
    (∀ n : Nat, attemptSeq n = MIN_PORT + ((n % 22 : Nat) : Int)) ∧
    (∀ (peers : ScanPeers) (nm : String) (fuel : Nat) (p : Option Int) (a : Int),
      scanRun peers nm fuel p = some a → peers a = some nm) ∧
    (∀ (peers : ScanPeers) (nm : String) (k fuel : Nat),
      k < fuel →
      (∀ j, j < k → peers (attemptSeq j) ≠ some nm) →
      peers (attemptSeq k) = some nm →
      scanRun peers nm fuel Option.none = some (attemptSeq k)) ∧
    (∀ (peers : ScanPeers) (nm : String) (fuel : Nat) (p : Option Int),
      (∀ q : Int, peers q ≠ some nm) → scanRun peers nm fuel p = Option.none) := by
  refine ⟨attemptSeq_mod, scanRun_sound, ?_, ?_⟩
  · intro peers nm k fuel hf hno hm
    have := scanRun_commits_first peers nm k 0 fuel (by omega)
      (fun j h1 h2 => hno j (by omega)) (by rw [Nat.zero_add]; exact hm)
    rw [Nat.zero_add] at this
    exact this
  · intro peers nm fuel p h
    exact scanRun_never_commits peers nm h fuel p

/-- Claim C9, witness: the amended theorem at the scenario of the
specification, a peer named aux at 6510 and a peer named main at 6513: the
dial for main commits exactly at 6513, the fourth attempted port. -/
theorem claim_C9_witness :
    scanRun (fun p => if p = 6510 then some "aux" else if p = 6513 then some "main"
      else Option.none) "main" 100 Option.none = some (attemptSeq 3) ∧
    attemptSeq 3 = 6513 := by
  have h := claim_C9_amended
  refine ⟨h.2.2.1 _ "main" 3 100 (by omega) ?_ (by decide), by decide⟩
  intro j hj hpj
  interval_cases j <;> revert hpj <;> decide

end SpecClient
